import Mathlib

/-!
Verification of the in-car telemetry pipeline
(`C1-cloud-communication/cloud_communicator.py` and
`C5-data-sensors/sensor_simulator.py`) against its specification.

The relay's `main_loop` is embedded as a step function over per-cycle
environment inputs: each cycle's external interactions (the fetch from the
store, the outcome of the cloud forward, the measured elapsed time, and
whether the cycle raised) are inputs, and the loop produces the trace of
status reports it emitted, the kind of exit it took, and the value of the
consecutive-failure counter at the start of each cycle it began.

Machine reals (`time.time()` arithmetic) are modelled as `ℚ`; the random
draws and trigonometric values of the sensor generators are explicit inputs
constrained to their mathematical ranges.
-/

/-- Status values the relay pushes via `send_status_update`
(cloud_communicator.py, lines 183-211): `online` at loop start,
`error` at the failure threshold, `offline` after the loop exits. -/
inductive Status where
  | online
  | error
  | offline
deriving DecidableEq, Repr

/-- How the relay's main loop ended:
`threshold` = `break` after `consecutive_failures >= max_failures` (line 240-246),
`interrupted` = `break` on `KeyboardInterrupt` (lines 264-266),
`stopped` = the `while self.running` condition became false (line 224),
`cancelled` = a `BaseException` (e.g. `asyncio.CancelledError`) propagated out of
the loop body: it is caught neither by `except KeyboardInterrupt` nor by
`except Exception`, and `main_loop` has no `try/finally`, so control leaves
`main_loop` without reaching line 273. -/
inductive ExitKind where
  | threshold
  | interrupted
  | stopped
  | cancelled
deriving DecidableEq, Repr

/-- The external inputs of one normal iteration of the relay loop body
(cloud_communicator.py, lines 226-262): the result of
`get_latest_data_from_c2` (`none` = no data / fetch error, which the method
turns into `None`), the boolean result of `send_data_to_cloud`, and the
measured `elapsed = time.time() - start_time`. The car payload is opaque to
the loop, so it is represented by a `Nat` token. -/
structure CycleIn where
  fetch : Option Nat
  forwardOk : Bool
  elapsed : ℚ
deriving DecidableEq, Repr

/-- Observable outcome of one loop-body iteration: whether
`send_data_to_cloud` was called, the consecutive-failure counter afterwards,
whether the iteration executed `break` at the failure threshold, the status
reports it emitted, and the sleep duration computed at line 259. -/
structure CycleOut where
  forwardCalled : Bool
  cf : Nat
  brk : Bool
  emitted : List Status
  sleepTime : ℚ
deriving DecidableEq, Repr

/-- `max_failures = 5` (cloud_communicator.py, line 222). -/
def max_failures : Nat := 5

/-- One iteration of the `while self.running` body of `main_loop`
(cloud_communicator.py, lines 226-262), given the counter at cycle start:

* `car_data` absent (line 247): no forward call, counter unchanged, fall
  through to the sleep computation;
* forward succeeded (line 235): counter reset to `0`, fall through to sleep;
* forward failed (line 237): counter incremented; if it reached
  `max_failures`, an `error` status is sent and the loop breaks before any
  sleep (lines 240-246); otherwise fall through to sleep.

The sleep is `max(0, send_interval - elapsed)` (line 259); the
`check_b2_for_commands` call between forward and sleep only logs and is
modelled separately (see `check_b2_for_commands` below). -/
def cycleStep (interval : ℚ) (cf : Nat) (c : CycleIn) : CycleOut :=
  match c.fetch with
  | none =>
      { forwardCalled := false, cf := cf, brk := false, emitted := [],
        sleepTime := max 0 (interval - c.elapsed) }
  | some _ =>
      if c.forwardOk then
        { forwardCalled := true, cf := 0, brk := false, emitted := [],
          sleepTime := max 0 (interval - c.elapsed) }
      else
        if max_failures ≤ cf + 1 then
          { forwardCalled := true, cf := cf + 1, brk := true,
            emitted := [Status.error], sleepTime := 0 }
        else
          { forwardCalled := true, cf := cf + 1, brk := false, emitted := [],
            sleepTime := max 0 (interval - c.elapsed) }

/-- What the environment does to one begun cycle of the relay loop:
`run c` = the body runs normally with inputs `c`;
`fault` = some exception reaches the `except Exception` handler
(lines 267-270): the counter is incremented and the loop pauses and continues;
`interrupt` = a `KeyboardInterrupt` reaches its handler (lines 264-266);
`cancel` = a `BaseException` such as `asyncio.CancelledError` is raised at an
await point: no handler in `main_loop` matches it, so it propagates. -/
inductive Event where
  | run (c : CycleIn)
  | fault
  | interrupt
  | cancel
deriving DecidableEq, Repr

/-- The `while self.running` loop of `main_loop` plus the final
`send_status_update("offline", ...)` (cloud_communicator.py, lines 224-273),
driven by a list of per-cycle events; an exhausted list models the `running`
flag having been cleared externally. Returns the emitted statuses, the exit
kind, and the counter value at the start of each cycle the loop began. -/
def runCycles (interval : ℚ) : Nat → List Event → List Status × ExitKind × List Nat
  | _, [] => ([Status.offline], ExitKind.stopped, [])
  | cf, Event.run c :: rest =>
      let o := cycleStep interval cf c
      if o.brk then
        (o.emitted ++ [Status.offline], ExitKind.threshold, [cf])
      else
        let r := runCycles interval o.cf rest
        (o.emitted ++ r.1, r.2.1, cf :: r.2.2)
  | cf, Event.fault :: rest =>
      let r := runCycles interval (cf + 1) rest
      (r.1, r.2.1, cf :: r.2.2)
  | cf, Event.interrupt :: _ => ([Status.offline], ExitKind.interrupted, [cf])
  | cf, Event.cancel :: _ => ([], ExitKind.cancelled, [cf])

/-- `main_loop` (cloud_communicator.py, lines 213-274): sends the initial
`online` status, runs the cycle loop with `consecutive_failures = 0`, and on
every exit path of the `while` loop that stays inside the function emits the
final `offline` status. -/
def main_loop (interval : ℚ) (events : List Event) :
    List Status × ExitKind × List Nat :=
  let r := runCycles interval 0 events
  (Status.online :: r.1, r.2.1, r.2.2)

/-- Shorthand for a cycle in which data is present and the forward fails. -/
def failCycle (d : Nat) (e : ℚ) : Event :=
  Event.run { fetch := some d, forwardOk := false, elapsed := e }

/-- Claim C1: if `send_data_to_cloud` fails on 5 consecutive cycles of the
relay's main loop, the loop terminates at the failure threshold and the
relay emits exactly one `error` status and exactly one `offline` status, in
that order (after the initial `online`). -/
theorem C1_failure_threshold (interval : ℚ) (d : Nat) (e : ℚ)
    (rest : List Event) :
    main_loop interval (List.replicate 5 (failCycle d e) ++ rest) =
      ([Status.online, Status.error, Status.offline], ExitKind.threshold,
        [0, 1, 2, 3, 4]) ∧
    (main_loop interval
        (List.replicate 5 (failCycle d e) ++ rest)).1.count Status.error = 1 ∧
    (main_loop interval
        (List.replicate 5 (failCycle d e) ++ rest)).1.count Status.offline = 1 := by
  refine ⟨?_, ?_, ?_⟩ <;>
    simp [main_loop, runCycles, cycleStep, failCycle, max_failures,
      List.replicate, List.count_cons]

/-- Claim C2 counterexample: five consecutive unexpected faults (each handled
by the `except Exception` branch, which increments the counter but performs
no threshold check) drive the counter to 5, yet the loop emits no `error`
status, does not terminate at the threshold, and begins a further cycle
while the counter equals 5. This refutes the claim that reaching the
threshold always emits `error` and terminates, and that the loop never
begins a cycle with the counter at or above the threshold. -/
theorem C2_counterexample :
    main_loop 10 (List.replicate 5 Event.fault ++
        [Event.run { fetch := some 0, forwardOk := true, elapsed := 0 }]) =
      ([Status.online, Status.offline], ExitKind.stopped,
        [0, 1, 2, 3, 4, 5]) ∧
    5 ∈ (main_loop 10 (List.replicate 5 Event.fault ++
        [Event.run { fetch := some 0, forwardOk := true, elapsed := 0 }])).2.2 ∧
    Status.error ∉ (main_loop 10 (List.replicate 5 Event.fault ++
        [Event.run { fetch := some 0, forwardOk := true, elapsed := 0 }])).1 := by
  refine ⟨?_, ?_, ?_⟩ <;>
    simp [main_loop, runCycles, cycleStep, max_failures, List.replicate]

/-- Claim C2 amended: the threshold check runs only after a
forwarding-failure increment. When a forwarding failure raises the counter
to `max_failures` or beyond, the relay emits an `error` status and the loop
terminates at the threshold; an unexpected-fault increment merely adds one
to the counter and lets the loop begin the next cycle, whatever the
counter's value. -/
theorem C2_amended (interval : ℚ) (cf : Nat) (d : Nat) (e : ℚ)
    (rest : List Event) (h : max_failures ≤ cf + 1) :
    runCycles interval cf (failCycle d e :: rest) =
      ([Status.error, Status.offline], ExitKind.threshold, [cf]) ∧
    runCycles interval cf (Event.fault :: rest) =
      ((runCycles interval (cf + 1) rest).1,
        (runCycles interval (cf + 1) rest).2.1,
        cf :: (runCycles interval (cf + 1) rest).2.2) := by
  constructor
  · simp [runCycles, cycleStep, failCycle, h]
  · simp [runCycles]

/-- Witness for `C2_amended` at `cf = 4`. -/
theorem C2_amended_witness :
    max_failures ≤ 4 + 1 ∧
    (runCycles 10 4 (failCycle 0 0 :: []) =
        ([Status.error, Status.offline], ExitKind.threshold, [4]) ∧
      runCycles 10 4 (Event.fault :: []) =
        ((runCycles 10 5 []).1, (runCycles 10 5 []).2.1,
          4 :: (runCycles 10 5 []).2.2)) :=
  ⟨by decide, C2_amended 10 4 0 0 [] (by decide)⟩

/-- Claim C3 counterexample: a propagating cancellation during the first
cycle leaves `main_loop` through an exit path on which the final `offline`
status is never attempted — the loop body catches only `KeyboardInterrupt`
and `Exception`, and there is no `try/finally` around the loop — refuting
the claim that the offline report is attempted on every exit path,
including abnormal ones. -/
theorem C3_counterexample :
    main_loop 10 [Event.cancel] = ([Status.online], ExitKind.cancelled, [0]) ∧
    (main_loop 10 [Event.cancel]).1.count Status.offline = 0 := by
  constructor <;> simp [main_loop, runCycles, List.count_cons]

/-- On every non-break cycle the body emits no status, and a break emits
exactly the single `error` status. -/
theorem cycleStep_emitted (interval : ℚ) (cf : Nat) (c : CycleIn) :
    (cycleStep interval cf c).emitted =
      (if (cycleStep interval cf c).brk then [Status.error] else []) := by
  unfold cycleStep
  cases c.fetch <;> simp
  split
  · simp
  · split <;> simp

/-- Claim C3 amended: the final `offline` status report is attempted exactly
once on every exit path that stays inside `main_loop` — failure threshold,
`KeyboardInterrupt`, and external stop (the `running` flag becoming false) —
but zero times when a `BaseException` such as a cancellation propagates out
of the loop, since `main_loop` has no `try/finally`. -/
theorem C3_amended (interval : ℚ) (events : List Event) :
    (main_loop interval events).1.count Status.offline =
      (if (main_loop interval events).2.1 = ExitKind.cancelled then 0 else 1) := by
  suffices h : ∀ cf, (runCycles interval cf events).1.count Status.offline =
      (if (runCycles interval cf events).2.1 = ExitKind.cancelled then 0 else 1) by
    have := h 0
    simpa [main_loop, List.count_cons] using this
  induction events with
  | nil => intro cf; simp [runCycles]
  | cons ev rest ih =>
      intro cf
      cases ev with
      | run c =>
          by_cases hb : (cycleStep interval cf c).brk
          · have he := cycleStep_emitted interval cf c
            rw [hb] at he
            simp [runCycles, hb, he, List.count_cons]
          · have he := cycleStep_emitted interval cf c
            rw [if_neg hb] at he
            simp [runCycles, hb, he, ih]
      | fault => simp [runCycles, ih]
      | interrupt => simp [runCycles, List.count_cons]
      | cancel => simp [runCycles]

/-- A command as returned by the Cloud Endpoint inside a telemetry response:
`{action, parameters}` (the relay treats `parameters` as an opaque map). -/
structure CloudCmd where
  action : String
  parameters : List (String × String)
deriving DecidableEq, Repr

/-- The payload built by `process_cloud_commands` for each command
(cloud_communicator.py, lines 141-147):
`{'command': action, 'parameters': ..., 'source': 'cloud',
'timestamp': ..., 'license_plate': ...}`. -/
structure CommandData where
  command : String
  parameters : List (String × String)
  source : String
  timestamp : String
  license_plate : String
deriving DecidableEq, Repr

/-- The vehicle-scoped command channel
`f"car:{self.config.license_plate}:commands"` (line 151). -/
def command_channel (plate : String) : String :=
  "car:" ++ plate ++ ":commands"

/-- The `command_data` dict built for one cloud command (lines 141-147). -/
def make_command_data (plate ts : String) (c : CloudCmd) : CommandData :=
  { command := c.action, parameters := c.parameters, source := "cloud",
    timestamp := ts, license_plate := plate }

/-- The `for command in commands` loop of `process_cloud_commands`
(cloud_communicator.py, lines 137-155), indexed so that the publish oracle
`pubOk` can fail any individual `redis_client.publish`: a raising publish
escapes the `for` loop into the `except Exception` handler at line 157, so
the remaining commands are not republished. Returns the list of
(channel, payload) pairs actually published. -/
def process_cloud_commands_go (plate ts : String) (pubOk : Nat → Bool) :
    Nat → List CloudCmd → List (String × CommandData)
  | _, [] => []
  | i, c :: cs =>
      if pubOk i then
        (command_channel plate, make_command_data plate ts c) ::
          process_cloud_commands_go plate ts pubOk (i + 1) cs
      else []

/-- `process_cloud_commands` (cloud_communicator.py, lines 134-158): runs the
publish loop and swallows any exception of its own (`except Exception` at
line 157), so it never propagates a republish failure to its caller. -/
def process_cloud_commands (plate ts : String) (cmds : List CloudCmd)
    (pubOk : Nat → Bool) : List (String × CommandData) :=
  process_cloud_commands_go plate ts pubOk 0 cmds

/-- Outcome of the HTTP POST in `send_data_to_cloud`: a response with a
status code and (for a parsed 200 body) its `commands` list, a timeout
(`asyncio.TimeoutError`, line 127), or any other transport exception
(line 130). -/
inductive HttpResult where
  | ok (status : Nat) (commands : List CloudCmd)
  | timedOut
  | transportFailure
deriving DecidableEq, Repr

/-- `send_data_to_cloud` (cloud_communicator.py, lines 91-132): returns
`True` exactly when `response.status == 200`; on 200 with a non-empty
`commands` list it calls `process_cloud_commands` (whose failures it never
sees, since that method swallows them); any non-200 status, timeout, or
transport error returns `False` with no republish. The returned pair is
(success flag, list of performed republishes). -/
def send_data_to_cloud (plate ts : String) (resp : HttpResult)
    (pubOk : Nat → Bool) : Bool × List (String × CommandData) :=
  match resp with
  | HttpResult.ok status cmds =>
      if status = 200 then
        (true, if cmds.isEmpty then [] else process_cloud_commands plate ts cmds pubOk)
      else
        (false, [])
  | HttpResult.timedOut => (false, [])
  | HttpResult.transportFailure => (false, [])

/-- Claim C4: a cycle with `fetchLatest` absent makes no forward call,
leaves the counter unchanged and sleeps the full interval (under
zero-latency, `elapsed = 0`); and every TransientIO outcome — timeout,
transport error, or non-200 response — makes `send_data_to_cloud` return
failure, which the loop counts toward the threshold and (below the
threshold) retries on the next cycle without breaking. -/
theorem C4_error_taxonomy (interval : ℚ) (cf : Nat) (fOk : Bool) (e : ℚ)
    (d : Nat) (plate ts : String) (status : Nat) (cmds : List CloudCmd)
    (pubOk : Nat → Bool)
    (hI : 0 ≤ interval) (hst : status ≠ 200) (hcf : cf + 1 < max_failures) :
    cycleStep interval cf { fetch := none, forwardOk := fOk, elapsed := e } =
      { forwardCalled := false, cf := cf, brk := false, emitted := [],
        sleepTime := max 0 (interval - e) } ∧
    (cycleStep interval cf
        { fetch := none, forwardOk := fOk, elapsed := 0 }).sleepTime = interval ∧
    (send_data_to_cloud plate ts HttpResult.timedOut pubOk).1 = false ∧
    (send_data_to_cloud plate ts HttpResult.transportFailure pubOk).1 = false ∧
    (send_data_to_cloud plate ts (HttpResult.ok status cmds) pubOk).1 = false ∧
    cycleStep interval cf { fetch := some d, forwardOk := false, elapsed := e } =
      { forwardCalled := true, cf := cf + 1, brk := false, emitted := [],
        sleepTime := max 0 (interval - e) } := by
  refine ⟨?_, ?_, ?_, ?_, ?_, ?_⟩
  · simp [cycleStep]
  · simp [cycleStep, hI]
  · simp [send_data_to_cloud]
  · simp [send_data_to_cloud]
  · simp [send_data_to_cloud, hst]
  · simp [cycleStep, Nat.not_le.mpr hcf]

/-- Witness for `C4_error_taxonomy` at a concrete input. -/
theorem C4_error_taxonomy_witness :
    (0 : ℚ) ≤ 10 ∧ (500 : Nat) ≠ 200 ∧ 2 + 1 < max_failures ∧
    (cycleStep 10 2 { fetch := none, forwardOk := false, elapsed := 3 } =
      { forwardCalled := false, cf := 2, brk := false, emitted := [],
        sleepTime := max 0 (10 - 3) } ∧
    (cycleStep 10 2
        { fetch := none, forwardOk := false, elapsed := 0 }).sleepTime = 10 ∧
    (send_data_to_cloud "ABC-123" "t0" HttpResult.timedOut (fun _ => true)).1 = false ∧
    (send_data_to_cloud "ABC-123" "t0" HttpResult.transportFailure (fun _ => true)).1 = false ∧
    (send_data_to_cloud "ABC-123" "t0" (HttpResult.ok 500 []) (fun _ => true)).1 = false ∧
    cycleStep 10 2 { fetch := some 7, forwardOk := false, elapsed := 3 } =
      { forwardCalled := true, cf := 3, brk := false, emitted := [],
        sleepTime := max 0 (10 - 3) }) :=
  ⟨by norm_num, by decide, by decide,
    C4_error_taxonomy 10 2 false 3 7 "ABC-123" "t0" 500 [] (fun _ => true)
      (by norm_num) (by decide) (by decide)⟩

/-- When every publish succeeds, the republish loop publishes exactly one
payload per command, in order. -/
theorem process_cloud_commands_go_all_ok (plate ts : String) :
    ∀ (cmds : List CloudCmd) (i : Nat),
      process_cloud_commands_go plate ts (fun _ => true) i cmds =
        cmds.map (fun c => (command_channel plate, make_command_data plate ts c)) := by
  intro cmds
  induction cmds with
  | nil => intro i; simp [process_cloud_commands_go]
  | cons c cs ih => intro i; simp [process_cloud_commands_go, ih]

/-- The command from the spec's scenario:
`{action: "start_heating", parameters: {target_temp: 22}}`. -/
def heatingCmd : CloudCmd :=
  { action := "start_heating", parameters := [("target_temp", "22")] }

/-- Claim C5 counterexample: the code tests `response.status == 200`, not
"2xx". A 201 response carrying a non-empty `commands` list is treated as a
forwarding failure: `send_data_to_cloud` returns `False` and republishes
nothing, so "forward succeeds (2xx response)" is false of the code. -/
theorem C5_counterexample :
    send_data_to_cloud "ABC-123" "t0" (HttpResult.ok 201 [heatingCmd])
        (fun _ => true) = (false, []) ∧
    cycleStep 10 0 { fetch := some 0, forwardOk := false, elapsed := 0 } ≠
      cycleStep 10 0 { fetch := some 0, forwardOk := true, elapsed := 0 } := by
  constructor
  · rfl
  · decide

/-- Claim C5 amended: when forward succeeds — which for this code means an
HTTP 200 response exactly (other 2xx statuses are treated as failures) —
with a non-empty commands list and no republish fault, each returned command
is republished exactly once, in order, to the vehicle-scoped channel
`car:{plate}:commands` with payload
`{command, parameters, source = "cloud", timestamp, license_plate}`, and the
consecutive-failure counter is reset to 0. -/
theorem C5_commands_republished (plate ts : String) (cmds : List CloudCmd)
    (interval : ℚ) (cf : Nat) (d : Nat) (e : ℚ) (h : cmds ≠ []) :
    send_data_to_cloud plate ts (HttpResult.ok 200 cmds) (fun _ => true) =
      (true, cmds.map
        (fun c => (command_channel plate, make_command_data plate ts c))) ∧
    (cycleStep interval cf
        { fetch := some d, forwardOk := true, elapsed := e }).cf = 0 := by
  constructor
  · simp [send_data_to_cloud, process_cloud_commands, h,
      process_cloud_commands_go_all_ok]
  · simp [cycleStep]

/-- Witness for `C5_commands_republished` on the spec's scenario command. -/
theorem C5_commands_republished_witness :
    ([heatingCmd] ≠ []) ∧
    (send_data_to_cloud "ABC-123" "t0" (HttpResult.ok 200 [heatingCmd])
        (fun _ => true) =
      (true, [heatingCmd].map
        (fun c => (command_channel "ABC-123", make_command_data "ABC-123" "t0" c))) ∧
    (cycleStep 10 3 { fetch := some 0, forwardOk := true, elapsed := 0 }).cf = 0) :=
  ⟨by decide, C5_commands_republished "ABC-123" "t0" [heatingCmd] 10 3 0 0
    (by decide)⟩

/-- Claim C10: forward's success result is independent of the republish
outcome. Whatever the publish oracle does — including failing every
publish — an HTTP 200 response makes `send_data_to_cloud` return success,
because `process_cloud_commands` swallows all of its own exceptions; and a
successful forward resets the consecutive-failure counter to 0. -/
theorem C10_success_independent_of_republish (plate ts : String)
    (cmds : List CloudCmd) (pubOk pubOk' : Nat → Bool) (interval : ℚ)
    (cf : Nat) (d : Nat) (e : ℚ) :
    (send_data_to_cloud plate ts (HttpResult.ok 200 cmds) pubOk).1 = true ∧
    (send_data_to_cloud plate ts (HttpResult.ok 200 cmds) pubOk).1 =
      (send_data_to_cloud plate ts (HttpResult.ok 200 cmds) pubOk').1 ∧
    (cycleStep interval cf
        { fetch := some d, forwardOk := true, elapsed := e }).cf = 0 := by
  refine ⟨?_, ?_, ?_⟩ <;> simp [send_data_to_cloud, cycleStep]

/-- `check_b2_for_commands` (cloud_communicator.py, lines 160-181) over the
pending-commands key of the store: with no client connection it returns
`None` and leaves the key alone; with a queued (well-formed) list it returns
the list and deletes the key (lines 170-175); with no value it returns
`None` (line 177). The result is (returned value, key contents afterwards);
the command payloads are opaque to the method. -/
def check_b2_for_commands {α : Type} (connected : Bool)
    (pending : Option (List α)) : Option (List α) × Option (List α) :=
  if connected then
    match pending with
    | some cmds => (some cmds, none)
    | none => (none, none)
  else
    (none, pending)

/-- Claim C7: with a connected client, draining twice in a row with no
intervening write returns the queued commands on the first call — which
reads and clears the key — and an empty result on the second call. -/
theorem C7_drain_idempotent {α : Type} (cmds : List α) :
    check_b2_for_commands true (some cmds) = (some cmds, none) ∧
    check_b2_for_commands true
        (check_b2_for_commands true (some cmds)).2 = (none, none) := by
  constructor <;> simp [check_b2_for_commands]

/-- Claim C6: on every cycle that proceeds to the next one (i.e. does not
break at the failure threshold), the computed sleep equals
`max 0 (interval - elapsed)`; it is never negative; the next cycle starts at
least `interval` after this cycle's start time; and under zero-latency I/O
(`elapsed = 0`, with a non-negative configured interval) the gap is exactly
the interval. -/
theorem C6_cadence (interval : ℚ) (cf : Nat) (c : CycleIn)
    (hbrk : (cycleStep interval cf c).brk = false) :
    (cycleStep interval cf c).sleepTime = max 0 (interval - c.elapsed) ∧
    0 ≤ (cycleStep interval cf c).sleepTime ∧
    interval ≤ c.elapsed + (cycleStep interval cf c).sleepTime ∧
    (c.elapsed = 0 → 0 ≤ interval →
      c.elapsed + (cycleStep interval cf c).sleepTime = interval) := by
  have hs : (cycleStep interval cf c).sleepTime = max 0 (interval - c.elapsed) := by
    unfold cycleStep at hbrk ⊢
    rcases hf : c.fetch with _ | d
    · simp [hf]
    · simp only [hf]
      simp only [hf] at hbrk
      by_cases hok : c.forwardOk
      · simp [hok]
      · simp only [hok] at hbrk ⊢
        by_cases hth : max_failures ≤ cf + 1
        · simp [hth] at hbrk
        · simp [hth]
  refine ⟨hs, ?_, ?_, ?_⟩
  · rw [hs]; exact le_max_left 0 (interval - c.elapsed)
  · rw [hs]
    have : interval - c.elapsed ≤ max 0 (interval - c.elapsed) :=
      le_max_right 0 (interval - c.elapsed)
    linarith
  · intro h0 hI
    rw [hs, h0]
    simp [max_eq_right hI]

/-- Witness for `C6_cadence`: a cycle with no data present never breaks. -/
theorem C6_cadence_witness :
    (cycleStep 10 2 { fetch := none, forwardOk := false, elapsed := 3 }).brk
        = false ∧
    ((cycleStep 10 2 { fetch := none, forwardOk := false, elapsed := 3 }).sleepTime
        = max 0 (10 - 3) ∧
      0 ≤ (cycleStep 10 2
        { fetch := none, forwardOk := false, elapsed := 3 }).sleepTime ∧
      (10 : ℚ) ≤ 3 + (cycleStep 10 2
        { fetch := none, forwardOk := false, elapsed := 3 }).sleepTime ∧
      ((3 : ℚ) = 0 → (0 : ℚ) ≤ 10 →
        (3 : ℚ) + (cycleStep 10 2
          { fetch := none, forwardOk := false, elapsed := 3 }).sleepTime = 10)) :=
  ⟨by decide, C6_cadence 10 2 { fetch := none, forwardOk := false, elapsed := 3 }
    (by decide)⟩

/-- Python's `round(x, 1)` (one decimal place), modelled over `ℚ`. -/
def round1 (x : ℚ) : ℚ :=
  ((round (x * 10) : ℤ) : ℚ) / 10

/-- Python's `round(x, 6)` (six decimal places), modelled over `ℚ`. -/
def round6 (x : ℚ) : ℚ :=
  ((round (x * 1000000) : ℤ) : ℚ) / 1000000

theorem round1_mono {x y : ℚ} (h : x ≤ y) : round1 x ≤ round1 y := by
  unfold round1
  have hr : round (x * 10) ≤ round (y * 10) := by
    rw [round_eq, round_eq]
    exact Int.floor_mono (by linarith)
  have hc : ((round (x * 10) : ℤ) : ℚ) ≤ ((round (y * 10) : ℤ) : ℚ) := by
    exact_mod_cast hr
  linarith

theorem round6_mono {x y : ℚ} (h : x ≤ y) : round6 x ≤ round6 y := by
  unfold round6
  have hr : round (x * 1000000) ≤ round (y * 1000000) := by
    rw [round_eq, round_eq]
    exact Int.floor_mono (by linarith)
  have hc : ((round (x * 1000000) : ℤ) : ℚ) ≤ ((round (y * 1000000) : ℤ) : ℚ) := by
    exact_mod_cast hr
  linarith

theorem round1_le_of_le {x b : ℚ} (h : x ≤ b) (hb : round1 b = b) :
    round1 x ≤ b := by
  calc round1 x ≤ round1 b := round1_mono h
    _ = b := hb

theorem le_round1_of_le {a x : ℚ} (h : a ≤ x) (ha : round1 a = a) :
    a ≤ round1 x := by
  calc a = round1 a := ha.symm
    _ ≤ round1 x := round1_mono h

theorem round6_le_of_le {x b : ℚ} (h : x ≤ b) (hb : round6 b = b) :
    round6 x ≤ b := by
  calc round6 x ≤ round6 b := round6_mono h
    _ = b := hb

theorem le_round6_of_le {a x : ℚ} (h : a ≤ x) (ha : round6 a = a) :
    a ≤ round6 x := by
  calc a = round6 a := ha.symm
    _ ≤ round6 x := round6_mono h

/-- `self.base_indoor_temp = 20.0` (sensor_simulator.py, line 26). -/
def base_indoor_temp : ℚ := 20

/-- `self.base_outdoor_temp = 10.0` (sensor_simulator.py, line 27). -/
def base_outdoor_temp : ℚ := 10

/-- `self.base_lat = 60.1699` (sensor_simulator.py, line 28). -/
def base_lat : ℚ := 60.1699

/-- `self.base_lng = 24.9384` (sensor_simulator.py, line 29). -/
def base_lng : ℚ := 24.9384

/-- `movement_radius = 0.005` (sensor_simulator.py, line 83). -/
def movement_radius : ℚ := 0.005

/-- `generate_indoor_temperature` (sensor_simulator.py, lines 50-59):
`round(base + r + sin(time_offset * 0.01) * 3, 1)`, with the draw
`r = random.uniform(-2, 5)` and the sine value
`s = sin(time_offset * 0.01) ∈ [-1, 1]` as explicit inputs. -/
def generate_indoor_temperature (r s : ℚ) : ℚ :=
  round1 (base_indoor_temp + r + s * 3)

/-- `generate_outdoor_temperature` (sensor_simulator.py, lines 61-78):
the returned temperature is
`round(base + s * 8 + trend + noise, 1)` where `s = sin((hour - 6) * π/12)`
is the daily-cycle sine value, `trend` is the trend state *before* this call
(the code adds the trend at line 71 and only then updates it), and
`noise = random.uniform(-1, 1)`. The second component is the updated trend:
`max(-5, min(5, trend + step))` with `step = random.uniform(-0.1, 0.1)`
(lines 72-73). -/
def generate_outdoor_temperature (trend s noise step : ℚ) : ℚ × ℚ :=
  (round1 (base_outdoor_temp + s * 8 + trend + noise),
    max (-5) (min 5 (trend + step)))

/-- `generate_gps_location` (sensor_simulator.py, lines 80-95):
`(round(base_lat + cos(angle) * distance, 6),
round(base_lng + sin(angle) * distance, 6))` with the trigonometric values
and the draw `distance = random.uniform(0, movement_radius)` as inputs. -/
def generate_gps_location (cosA sinA dist : ℚ) : ℚ × ℚ :=
  (round6 (base_lat + cosA * dist), round6 (base_lng + sinA * dist))

/-- The trend-state update performed by one call of
`generate_outdoor_temperature`, as a fold step over the per-tick inputs
`(s, noise, step)`. -/
def update_trend (t : ℚ) (p : ℚ × ℚ × ℚ) : ℚ :=
  (generate_outdoor_temperature t p.1 p.2.1 p.2.2).2

/-- The emitter's `outdoor_temp_trend` state after a sequence of calls,
starting from its initial value `0` (sensor_simulator.py, line 33). -/
def outdoor_trend_run (ticks : List (ℚ × ℚ × ℚ)) : ℚ :=
  ticks.foldl update_trend 0

theorem outdoor_trend_foldl_bounds :
    ∀ (ticks : List (ℚ × ℚ × ℚ)) (t : ℚ), -5 ≤ t → t ≤ 5 →
      -5 ≤ ticks.foldl update_trend t ∧ ticks.foldl update_trend t ≤ 5 := by
  intro ticks
  induction ticks with
  | nil => intro t h1 h2; exact ⟨h1, h2⟩
  | cons p ps ih =>
      intro t _ _
      have h1 : -5 ≤ update_trend t p := le_max_left _ _
      have h2 : update_trend t p ≤ 5 := by
        apply max_le
        · norm_num
        · exact min_le_left _ _
      simpa [List.foldl_cons] using ih (update_trend t p) h1 h2

/-- Claim C9: the outdoor-temperature trend state starts at `0` and, after
every sequence of calls to the outdoor generator (whatever steps the random
walk draws), remains clamped within `[-5, 5]`; in particular the invariant
holds in every reachable emitter state. -/
theorem C9_trend_invariant :
    outdoor_trend_run [] = 0 ∧
    ∀ ticks : List (ℚ × ℚ × ℚ),
      -5 ≤ outdoor_trend_run ticks ∧ outdoor_trend_run ticks ≤ 5 := by
  constructor
  · rfl
  · intro ticks
    exact outdoor_trend_foldl_bounds ticks 0 (by norm_num) (by norm_num)

theorem trend_replicate_steps :
    ∀ (k : Nat) (t : ℚ), -5 ≤ t → t ≤ 5 →
      (List.replicate k ((0 : ℚ), (0 : ℚ), (-1 / 10 : ℚ))).foldl update_trend t =
        max (-5) (t - k / 10) := by
  intro k
  induction k with
  | zero =>
      intro t h1 _
      simp [max_eq_right h1]
  | succ k ih =>
      intro t h1 h2
      rw [List.replicate_succ, List.foldl_cons]
      have hu : update_trend t ((0 : ℚ), (0 : ℚ), (-1 / 10 : ℚ)) =
          max (-5) (t - 1 / 10) := by
        have hmin : min 5 (t + -1 / 10) = t + -1 / 10 :=
          min_eq_right (by linarith)
        simp only [update_trend, generate_outdoor_temperature, hmin]
        ring_nf
      rw [hu]
      have h1' : -5 ≤ max (-5) (t - 1 / 10) := le_max_left _ _
      have h2' : max (-5) (t - 1 / 10) ≤ 5 :=
        max_le (by norm_num) (by linarith)
      rw [ih (max (-5) (t - 1 / 10)) h1' h2']
      by_cases hc : -5 ≤ t - 1 / 10
      · rw [max_eq_right hc]
        congr 1
        push_cast
        ring
      · push_neg at hc
        have hk : (0 : ℚ) ≤ (k : ℚ) / 10 := by positivity
        rw [max_eq_left (le_of_lt hc), max_eq_left (by linarith),
          max_eq_left (by push_cast; linarith)]

/-- Claim C8 counterexample: the claimed generator band `outdoor ∈ [0, 30]`
fails. At midnight (`hour = 0`, daily sine value exactly `-1`), with the
trend at `-5` — reachable from the initial state by 50 random-walk steps of
`-0.1`, as the third conjunct certifies — and noise at its `-1` endpoint,
the generated outdoor temperature is `-4 < 0`. -/
theorem C8_counterexample :
    (generate_outdoor_temperature (-5) (-1) (-1) 0).1 = -4 ∧
    (generate_outdoor_temperature (-5) (-1) (-1) 0).1 < 0 ∧
    outdoor_trend_run (List.replicate 50 ((0 : ℚ), (0 : ℚ), (-1 / 10 : ℚ))) = -5 := by
  have h1 : (generate_outdoor_temperature (-5) (-1) (-1) 0).1 = -4 := by
    norm_num [generate_outdoor_temperature, base_outdoor_temp, round1, round_eq]
  have h3 : outdoor_trend_run
      (List.replicate 50 ((0 : ℚ), (0 : ℚ), (-1 / 10 : ℚ))) = -5 := by
    rw [outdoor_trend_run, trend_replicate_steps 50 0 (by norm_num) (by norm_num)]
    norm_num
  exact ⟨h1, by rw [h1]; norm_num, h3⟩

/-- Claim C8 amended: under the stated generator parameters — uniform draw
`r ∈ [-2, 5]` and sine value `s ∈ [-1, 1]` for the indoor signal; trend
state `t ∈ [-5, 5]` (the invariant of `C9`), daily sine value
`sd ∈ [-1, 1]` and noise `∈ [-1, 1]` for the outdoor signal; trigonometric
values in `[-1, 1]` and distance `∈ [0, movement_radius]` for position —
indoor temperature lies in `[15, 28] ⊆ [15, 35]`, outdoor temperature lies
in `[-4, 24]` (not in the claimed `[0, 30]`: see `C8_counterexample`), both
lie in the envelope `[-50, 100]`, latitude lies in `[-90, 90]` and longitude
in `[-180, 180]`. -/
theorem C8_signal_bounds (r s t sd noise step cosA sinA dist : ℚ)
    (hr1 : -2 ≤ r) (hr2 : r ≤ 5) (hs1 : -1 ≤ s) (hs2 : s ≤ 1)
    (ht1 : -5 ≤ t) (ht2 : t ≤ 5) (hsd1 : -1 ≤ sd) (hsd2 : sd ≤ 1)
    (hn1 : -1 ≤ noise) (hn2 : noise ≤ 1)
    (hc1 : -1 ≤ cosA) (hc2 : cosA ≤ 1) (hq1 : -1 ≤ sinA) (hq2 : sinA ≤ 1)
    (hd1 : 0 ≤ dist) (hd2 : dist ≤ movement_radius) :
    15 ≤ generate_indoor_temperature r s ∧
    generate_indoor_temperature r s ≤ 28 ∧
    generate_indoor_temperature r s ≤ 35 ∧
    -50 ≤ generate_indoor_temperature r s ∧
    generate_indoor_temperature r s ≤ 100 ∧
    -4 ≤ (generate_outdoor_temperature t sd noise step).1 ∧
    (generate_outdoor_temperature t sd noise step).1 ≤ 24 ∧
    -50 ≤ (generate_outdoor_temperature t sd noise step).1 ∧
    (generate_outdoor_temperature t sd noise step).1 ≤ 100 ∧
    -90 ≤ (generate_gps_location cosA sinA dist).1 ∧
    (generate_gps_location cosA sinA dist).1 ≤ 90 ∧
    -180 ≤ (generate_gps_location cosA sinA dist).2 ∧
    (generate_gps_location cosA sinA dist).2 ≤ 180 := by
  have hd2' : dist ≤ 0.005 := by simpa [movement_radius] using hd2
  have hcd1 : -1 * dist ≤ cosA * dist := mul_le_mul_of_nonneg_right hc1 hd1
  have hcd2 : cosA * dist ≤ 1 * dist := mul_le_mul_of_nonneg_right hc2 hd1
  have hqd1 : -1 * dist ≤ sinA * dist := mul_le_mul_of_nonneg_right hq1 hd1
  have hqd2 : sinA * dist ≤ 1 * dist := mul_le_mul_of_nonneg_right hq2 hd1
  have hIlo : 15 ≤ generate_indoor_temperature r s := by
    simp only [generate_indoor_temperature, base_indoor_temp]
    exact le_round1_of_le (by linarith) (by norm_num [round1, round_eq])
  have hIhi : generate_indoor_temperature r s ≤ 28 := by
    simp only [generate_indoor_temperature, base_indoor_temp]
    exact round1_le_of_le (by linarith) (by norm_num [round1, round_eq])
  have hOlo : -4 ≤ (generate_outdoor_temperature t sd noise step).1 := by
    simp only [generate_outdoor_temperature, base_outdoor_temp]
    exact le_round1_of_le (by linarith) (by norm_num [round1, round_eq])
  have hOhi : (generate_outdoor_temperature t sd noise step).1 ≤ 24 := by
    simp only [generate_outdoor_temperature, base_outdoor_temp]
    exact round1_le_of_le (by linarith) (by norm_num [round1, round_eq])
  have hLlo : (60 : ℚ) ≤ (generate_gps_location cosA sinA dist).1 := by
    simp only [generate_gps_location, base_lat]
    exact le_round6_of_le (by norm_num; linarith) (by norm_num [round6, round_eq])
  have hLhi : (generate_gps_location cosA sinA dist).1 ≤ 61 := by
    simp only [generate_gps_location, base_lat]
    exact round6_le_of_le (by norm_num; linarith) (by norm_num [round6, round_eq])
  have hGlo : (24 : ℚ) ≤ (generate_gps_location cosA sinA dist).2 := by
    simp only [generate_gps_location, base_lng]
    exact le_round6_of_le (by norm_num; linarith) (by norm_num [round6, round_eq])
  have hGhi : (generate_gps_location cosA sinA dist).2 ≤ 25 := by
    simp only [generate_gps_location, base_lng]
    exact round6_le_of_le (by norm_num; linarith) (by norm_num [round6, round_eq])
  refine ⟨hIlo, hIhi, by linarith, by linarith, by linarith, hOlo, hOhi,
    by linarith, by linarith, by linarith, by linarith, by linarith, by linarith⟩

/-- Witness for `C8_signal_bounds` at concrete generator inputs. -/
theorem C8_signal_bounds_witness :
    (-2 ≤ (0 : ℚ)) ∧ ((0 : ℚ) ≤ 5) ∧ (-1 ≤ (0 : ℚ)) ∧ ((0 : ℚ) ≤ 1) ∧
    (-5 ≤ (0 : ℚ)) ∧ ((0 : ℚ) ≤ 5) ∧ ((0 : ℚ) ≤ movement_radius) ∧
    (15 ≤ generate_indoor_temperature 0 0 ∧
      generate_indoor_temperature 0 0 ≤ 28 ∧
      generate_indoor_temperature 0 0 ≤ 35 ∧
      -50 ≤ generate_indoor_temperature 0 0 ∧
      generate_indoor_temperature 0 0 ≤ 100 ∧
      -4 ≤ (generate_outdoor_temperature 0 0 0 0).1 ∧
      (generate_outdoor_temperature 0 0 0 0).1 ≤ 24 ∧
      -50 ≤ (generate_outdoor_temperature 0 0 0 0).1 ∧
      (generate_outdoor_temperature 0 0 0 0).1 ≤ 100 ∧
      -90 ≤ (generate_gps_location 0 0 0).1 ∧
      (generate_gps_location 0 0 0).1 ≤ 90 ∧
      -180 ≤ (generate_gps_location 0 0 0).2 ∧
      (generate_gps_location 0 0 0).2 ≤ 180) :=
  ⟨by norm_num, by norm_num, by norm_num, by norm_num, by norm_num,
    by norm_num, by norm_num [movement_radius],
    C8_signal_bounds 0 0 0 0 0 0 0 0 0 (by norm_num) (by norm_num)
      (by norm_num) (by norm_num) (by norm_num) (by norm_num) (by norm_num)
      (by norm_num) (by norm_num) (by norm_num) (by norm_num) (by norm_num)
      (by norm_num) (by norm_num) (by norm_num) (by norm_num [movement_radius])⟩
